import Mathlib

/-!
Shallow embedding of `src/web/middleware.go` of the twister repository:
the response-filter chain (`filterResponder`, `FilterRespond`), the XSRF
token generation, and `formHandler.ServeWeb` (body-parse error handling
and the XSRF guard state machine).  Collaborators that live in other
files of the repository (the `Values` multimap, status constants, header
names, cookie serialization, `Request.ParseForm`) are modelled from the
spec where noted.
-/

/-- Modelled from the spec: the multimap type used for headers, cookies
and request parameters (spec section 3: HeaderMap is "a multimap from
canonical header name to one or more string values; supports get-first,
add, and set-replace operations"; the parameter map "supports get/set,
multi-valued"; cookie lookup "preserve first-match").  Mirrors Go's
`map[string][]string` with `Get` returning the first value, `Add`
appending a value and `Set` replacing the entry with a single value. -/
structure Values where
  entries : List (String × List String)
deriving DecidableEq, Repr

/-- The list of values stored under key `k` (first matching entry). -/
def getAllEntries : List (String × List String) → String → List String
  | [], _ => []
  | (k', vs) :: rest, k => if k' = k then vs else getAllEntries rest k

/-- Replace the entry for `k` by the single value `v` (Go map assignment
`m[key] = []string{value}`). -/
def setEntries : List (String × List String) → String → String → List (String × List String)
  | [], k, v => [(k, [v])]
  | (k', vs) :: rest, k, v =>
      if k' = k then (k, [v]) :: rest else (k', vs) :: setEntries rest k v

/-- Append `v` to the entry for `k` (Go `m[key] = append(m[key], value)`). -/
def addEntries : List (String × List String) → String → String → List (String × List String)
  | [], k, v => [(k, [v])]
  | (k', vs) :: rest, k, v =>
      if k' = k then (k', vs ++ [v]) :: rest else (k', vs) :: addEntries rest k v

def Values.getAll (m : Values) (k : String) : List String :=
  getAllEntries m.entries k

/-- Go `Values.Get`: first value for the key, or the empty string. -/
def Values.get (m : Values) (k : String) : String :=
  match m.getAll k with
  | v :: _ => v
  | [] => ""

def Values.set (m : Values) (k v : String) : Values :=
  ⟨setEntries m.entries k v⟩

def Values.add (m : Values) (k v : String) : Values :=
  ⟨addEntries m.entries k v⟩

abbrev HeaderMap := Values

/-- The responder chain: `Responder.base` is the original responder owned
by the enclosing pipeline; `Responder.filtered inner f` is the
`filterResponder` struct of middleware.go lines 23-26, holding the
previously stored responder and a filter. -/
inductive Responder where
  | base : Responder
  | filtered : Responder → (Nat → HeaderMap → Nat × HeaderMap) → Responder

/-- `filterResponder.Respond` (middleware.go lines 28-30):
`rf.Responder.Respond(rf.filter(status, header))`.  The result is the
`(status, header)` pair that finally reaches the base responder. -/
def Responder.respond : Responder → Nat → HeaderMap → Nat × HeaderMap
  | .base, status, header => (status, header)
  | .filtered inner f, status, header =>
      inner.respond (f status header).1 (f status header).2

/-- Name of the XSRF cookie (middleware.go line 49). -/
def XSRFCookieName : String := "xsrf"

/-- Name of the XSRF request parameter (middleware.go line 50). -/
def XSRFParamName : String := "xsrf"

/-- Modelled from the spec: canonical name of the Expect header (constant
`HeaderExpect` lives in another file of the repository). -/
def HeaderExpect : String := "Expect"

/-- Modelled from the spec: canonical name of the Set-Cookie header. -/
def HeaderSetCookie : String := "Set-Cookie"

/-- Modelled from the spec: canonical name of the X-XSRFToken header, the
alternate token channel for AJAX clients. -/
def HeaderXXSRFToken : String := "X-Xsrftoken"

/-- Modelled from the spec: the generic bad-request status. -/
def StatusBadRequest : Nat := 400

/-- Modelled from the spec: the not-found status used for XSRF rejection. -/
def StatusNotFound : Nat := 404

/-- Modelled from the spec: the request-entity-too-large status. -/
def StatusRequestEntityTooLarge : Nat := 413

/-- Modelled from the spec: the expectation-failed status. -/
def StatusExpectationFailed : Nat := 417

/-- The request record (the fields of `web.Request` that middleware.go
touches).  The downstream handler and the error handler are modelled by
the `Outcome` type below rather than stored as fields. -/
structure Request where
  method : String
  header : HeaderMap
  cookie : Values
  param : Values
  responder : Responder

/-- `FilterRespond` (middleware.go lines 35-37): replaces the request's
responder with one that filters the arguments to Respond. -/
def FilterRespond (req : Request) (filter : Nat → HeaderMap → Nat × HeaderMap) : Request :=
  { req with responder := Responder.filtered req.responder filter }

/-- `tokenLen` (middleware.go line 160). -/
def tokenLen : Nat := 8

/-- The hex digit table of Go's encoding/hex. -/
def hextable : List Char :=
  "0123456789abcdef".toList

def hexDigit (n : Nat) : Char := hextable.getD n '0'

/-- `hex.EncodeToString`: each byte `b` becomes `hextable[b>>4]` then
`hextable[b&0x0f]`. -/
def hexEncodeChars : List Nat → List Char
  | [] => []
  | b :: bs => hexDigit (b / 16) :: hexDigit (b % 16) :: hexEncodeChars bs

/-- The four random bytes read from `rand.Reader` into the buffer `p` of
length `tokenLen/2` (middleware.go lines 165-166). -/
structure Byte4 where
  b0 : Fin 256
  b1 : Fin 256
  b2 : Fin 256
  b3 : Fin 256

/-- The minted token (middleware.go line 170):
`expectedToken = hex.EncodeToString(p)`. -/
def genToken (p : Byte4) : String :=
  String.mk (hexEncodeChars [p.b0.val, p.b1.val, p.b2.val, p.b3.val])

/-- Modelled from the spec: `NewCookie(name, value).String()` lives in
another file of the repository; the spec (section 6) gives the wire
format `xsrf=<token>`. -/
def NewCookieString (name value : String) : String :=
  name ++ "=" ++ value

/-- Modelled from the spec: the outcome of `Request.ParseForm` (Form
Ingestion, an external collaborator in another file of the repository).
`tooLarge` is the `ErrRequestEntityTooLarge` error, `other` any other
parse error. -/
inductive ParseErr where
  | tooLarge : ParseErr
  | other : ParseErr

/-- What `formHandler.ServeWeb` does with a request: `panicked` models
the Go `panic`, `errored status msg req` models `req.Error(status, err)`
(the error path sees the request in its state at that moment), and
`delegated req` models `h.h.ServeWeb(req)` (the downstream handler sees
the possibly mutated request). -/
inductive Outcome where
  | panicked : String → Outcome
  | errored : Nat → String → Request → Outcome
  | delegated : Request → Outcome

/-- The filter installed when a token is minted (middleware.go lines
172-175): add a Set-Cookie header for the serialized cookie `c`. -/
def mintFilter (c : String) : Nat → HeaderMap → Nat × HeaderMap :=
  fun status header => (status, header.add HeaderSetCookie c)

/-- Middleware.go lines 183-195: compare expected and actual tokens; on
mismatch set the `xsrf` parameter to the expected token and reject
mutating methods with StatusNotFound, distinguishing a missing from a
bad token; otherwise fall through to delegation. -/
def xsrfCompare (expectedToken actualToken : String) (req : Request) : Outcome :=
  if expectedToken ≠ actualToken then
    let req := { req with param := req.param.set XSRFParamName expectedToken }
    if req.method = "POST" ∨ req.method = "PUT" ∨ req.method = "DELETE" then
      Outcome.errored StatusNotFound
        (if actualToken = "" then "twister: missing xsrf token" else "twister: bad xsrf token")
        req
    else
      Outcome.delegated req
  else
    Outcome.delegated req

/-- Middleware.go lines 178-182: the actual token is the `xsrf`
parameter; when that is empty, fall back to the X-XSRFToken header and
set the `xsrf` parameter to the expected token. -/
def xsrfValidate (expectedToken : String) (req : Request) : Outcome :=
  let actualToken := req.param.get XSRFParamName
  if actualToken = "" then
    xsrfCompare expectedToken (req.header.get HeaderXXSRFToken)
      { req with param := req.param.set XSRFParamName expectedToken }
  else
    xsrfCompare expectedToken actualToken req

/-- The `formHandler` struct (middleware.go lines 140-144); the
downstream handler is modelled by `Outcome.delegated`. -/
structure formHandler where
  maxRequestBodyLen : Nat
  checkXSRF : Bool

/-- `formHandler.ServeWeb` (middleware.go lines 146-199).  `rng` is the
injected secure random source (`none`: `rand.Reader.Read` fails);
`parseResult` is the outcome of `req.ParseForm(h.maxRequestBodyLen)`,
the external Form Ingestion collaborator (`none`: success). -/
def formHandler.ServeWeb (h : formHandler) (rng : Option Byte4)
    (parseResult : Option ParseErr) (req : Request) : Outcome :=
  match parseResult with
  | some err =>
      let status :=
        match err with
        | ParseErr.other => StatusBadRequest
        | ParseErr.tooLarge =>
            if req.header.get HeaderExpect = "" then StatusRequestEntityTooLarge
            else StatusExpectationFailed
      Outcome.errored status "twister: Error reading or parsing form." req
  | none =>
      if h.checkXSRF then
        let expectedToken := req.cookie.get XSRFCookieName
        if expectedToken.length = tokenLen then
          xsrfValidate expectedToken req
        else
          match rng with
          | none => Outcome.panicked "twister: rand read failed"
          | some p =>
              let expectedToken := genToken p
              let c := NewCookieString XSRFCookieName expectedToken
              xsrfValidate expectedToken (FilterRespond req (mintFilter c))
      else
        Outcome.delegated req

/-! Observation helpers used only in theorem statements. -/

/-- Whether the downstream handler was invoked. -/
def Outcome.isDelegated : Outcome → Bool
  | .delegated _ => true
  | _ => false

/-- The status passed to the error path, when the error path ran. -/
def Outcome.statusOf : Outcome → Option Nat
  | .errored s _ _ => some s
  | _ => none

/-- The error message passed to the error path, when the error path ran. -/
def Outcome.errorOf : Outcome → Option String
  | .errored _ m _ => some m
  | _ => none

/-- The responder of the request handed to the downstream handler or to
the error path (none when the handler panicked). -/
def Outcome.responderOf : Outcome → Option Responder
  | .delegated r => some r.responder
  | .errored _ _ r => some r.responder
  | .panicked _ => none

/-- The parameter map of the request handed to the downstream handler. -/
def Outcome.delegatedParam : Outcome → Option Values
  | .delegated r => some r.param
  | _ => none

/-- The first value of parameter `k` as the downstream handler reads it. -/
def Outcome.delegatedParamGet (o : Outcome) (k : String) : Option String :=
  match o with
  | .delegated r => some (r.param.get k)
  | _ => none

/-- Whenever delegation occurs, the downstream handler reads `v` as the
first value of parameter `k`. -/
def paramSeenByDownstream (o : Outcome) (k v : String) : Bool :=
  match o with
  | .delegated r => r.param.get k == v
  | _ => true

/-- The Set-Cookie values of the response finally delivered to the base
responder, when the eventual response is emitted with `status` and
`header` (by the downstream handler or by the error path). -/
def Outcome.setCookieValues (o : Outcome) (status : Nat) (header : HeaderMap) : List String :=
  match o.responderOf with
  | some r => (r.respond status header).2.getAll HeaderSetCookie
  | none => []

/-- The "expected" token of the guard as a function of the inputs: the
cookie value when it has the canonical length, else the minted token. -/
def expectedTokenOf (p : Byte4) (req : Request) : String :=
  if (req.cookie.get XSRFCookieName).length = tokenLen then
    req.cookie.get XSRFCookieName
  else genToken p

/-- The "actual" (submitted) token of the guard as a function of the
inputs: the `xsrf` parameter, or the X-XSRFToken header when the
parameter is empty. -/
def actualTokenOf (req : Request) : String :=
  if req.param.get XSRFParamName = "" then req.header.get HeaderXXSRFToken
  else req.param.get XSRFParamName

/-- A string made of lowercase hexadecimal characters only. -/
def isHexChar (c : Char) : Bool :=
  c.isDigit || ('a' ≤ c && c ≤ 'f')

/-! Lemmas about the multimap operations. -/

lemma getAllEntries_setEntries (l : List (String × List String)) (k v : String) :
    getAllEntries (setEntries l k v) k = [v] := by
  induction l with
  | nil => simp [setEntries, getAllEntries]
  | cons hd tl ih =>
      obtain ⟨k', vs⟩ := hd
      by_cases h : k' = k
      · simp [setEntries, getAllEntries, h]
      · simp [setEntries, getAllEntries, h, ih]

lemma Values.get_set_self (m : Values) (k v : String) :
    (m.set k v).get k = v := by
  simp [Values.get, Values.getAll, Values.set, getAllEntries_setEntries]

lemma getAllEntries_addEntries (l : List (String × List String)) (k v : String) :
    getAllEntries (addEntries l k v) k = getAllEntries l k ++ [v] := by
  induction l with
  | nil => simp [addEntries, getAllEntries]
  | cons hd tl ih =>
      obtain ⟨k', vs⟩ := hd
      by_cases h : k' = k
      · simp [addEntries, getAllEntries, h]
      · simp [addEntries, getAllEntries, h, ih]

lemma Values.getAll_add_self (m : Values) (k v : String) :
    (m.add k v).getAll k = m.getAll k ++ [v] := by
  simp [Values.getAll, Values.add, getAllEntries_addEntries]

/-! Lemmas about the guard. -/

/-- Unfolding `ServeWeb` on a successfully parsed request with XSRF
checking enabled and a working random source. -/
lemma ServeWeb_checkXSRF (h : formHandler) (p : Byte4) (req : Request)
    (hx : h.checkXSRF = true) :
    h.ServeWeb (some p) none req =
      if (req.cookie.get XSRFCookieName).length = tokenLen then
        xsrfValidate (req.cookie.get XSRFCookieName) req
      else
        xsrfValidate (genToken p)
          (FilterRespond req (mintFilter (NewCookieString XSRFCookieName (genToken p)))) := by
  simp [formHandler.ServeWeb, hx]

/-- `xsrfValidate` is `xsrfCompare` on the actual token, with the `xsrf`
parameter set to the expected token when the parameter was empty. -/
lemma xsrfValidate_run (e : String) (req : Request) :
    xsrfValidate e req =
      xsrfCompare e (actualTokenOf req)
        (if req.param.get XSRFParamName = "" then
          { req with param := req.param.set XSRFParamName e }
        else req) := by
  by_cases h : req.param.get XSRFParamName = "" <;>
    simp [xsrfValidate, actualTokenOf, h]

lemma xsrfCompare_eq (e a : String) (req : Request) (h : e = a) :
    xsrfCompare e a req = Outcome.delegated req := by
  simp [xsrfCompare, h]

lemma xsrfCompare_ne_mutating (e a : String) (req : Request) (hne : e ≠ a)
    (hm : req.method = "POST" ∨ req.method = "PUT" ∨ req.method = "DELETE") :
    xsrfCompare e a req =
      Outcome.errored StatusNotFound
        (if a = "" then "twister: missing xsrf token" else "twister: bad xsrf token")
        { req with param := req.param.set XSRFParamName e } := by
  simp [xsrfCompare, hne, hm]

lemma xsrfCompare_ne_safe (e a : String) (req : Request) (hne : e ≠ a)
    (hm : ¬(req.method = "POST" ∨ req.method = "PUT" ∨ req.method = "DELETE")) :
    xsrfCompare e a req =
      Outcome.delegated { req with param := req.param.set XSRFParamName e } := by
  simp [xsrfCompare, hne, hm]

/-- The guard's validation step never panics and never touches the
responder. -/
lemma responderOf_xsrfValidate (e : String) (req : Request) :
    (xsrfValidate e req).responderOf = some req.responder := by
  rw [xsrfValidate_run]
  by_cases hp : req.param.get XSRFParamName = "" <;>
    by_cases hne : e = actualTokenOf req <;>
      by_cases hm : req.method = "POST" ∨ req.method = "PUT" ∨ req.method = "DELETE" <;>
        simp [hp, xsrfCompare, hne, hm, Outcome.responderOf]

/-- Whenever the guard's validation step delegates or errors, the request
it hands over carries the expected token as the value of the `xsrf`
parameter read by `Get`. -/
lemma paramSeen_xsrfValidate (e : String) (req : Request) :
    paramSeenByDownstream (xsrfValidate e req) XSRFParamName e = true := by
  rw [xsrfValidate_run]
  by_cases hp : req.param.get XSRFParamName = ""
  · by_cases hne : e = actualTokenOf req <;>
      by_cases hm : req.method = "POST" ∨ req.method = "PUT" ∨ req.method = "DELETE" <;>
        simp [hp, xsrfCompare, hne, hm, paramSeenByDownstream, Values.get_set_self]
  · by_cases hne : e = actualTokenOf req
    · rw [if_neg hp, xsrfCompare_eq e _ req hne]
      have ha : actualTokenOf req = req.param.get XSRFParamName := by
        simp [actualTokenOf, hp]
      simp [paramSeenByDownstream]
      exact (hne.trans ha).symm
    · by_cases hm : req.method = "POST" ∨ req.method = "PUT" ∨ req.method = "DELETE" <;>
        simp [hp, xsrfCompare, hne, hm, paramSeenByDownstream, Values.get_set_self]

/-- On a token mismatch and a mutating method, the validation step takes
the error path with StatusNotFound and the missing/bad message. -/
lemma xsrfValidate_ne_mutating (e : String) (req : Request)
    (hne : e ≠ actualTokenOf req)
    (hm : req.method = "POST" ∨ req.method = "PUT" ∨ req.method = "DELETE") :
    (xsrfValidate e req).isDelegated = false ∧
    (xsrfValidate e req).statusOf = some StatusNotFound ∧
    (xsrfValidate e req).errorOf =
      some (if actualTokenOf req = "" then "twister: missing xsrf token"
            else "twister: bad xsrf token") := by
  rw [xsrfValidate_run]
  by_cases hp : req.param.get XSRFParamName = "" <;>
    simp [hp, xsrfCompare, hne, hm, Outcome.isDelegated, Outcome.statusOf, Outcome.errorOf]

/-- On a token mismatch and a safe method, the validation step delegates
with the `xsrf` parameter set to the expected token. -/
lemma xsrfValidate_ne_safe (e : String) (req : Request)
    (hne : e ≠ actualTokenOf req)
    (hm : ¬(req.method = "POST" ∨ req.method = "PUT" ∨ req.method = "DELETE")) :
    (xsrfValidate e req).isDelegated = true ∧
    (xsrfValidate e req).delegatedParamGet XSRFParamName = some e := by
  rw [xsrfValidate_run]
  by_cases hp : req.param.get XSRFParamName = "" <;>
    simp [hp, xsrfCompare, hne, hm, Outcome.isDelegated, Outcome.delegatedParamGet,
      Values.get_set_self]

/-- On a token match the validation step delegates and the downstream
handler reads the expected token from the `xsrf` parameter. -/
lemma xsrfValidate_match (e : String) (req : Request) (heq : e = actualTokenOf req) :
    (xsrfValidate e req).isDelegated = true ∧
    (xsrfValidate e req).delegatedParamGet XSRFParamName = some e := by
  rw [xsrfValidate_run, xsrfCompare_eq _ _ _ heq]
  by_cases hp : req.param.get XSRFParamName = ""
  · simp [hp, Outcome.isDelegated, Outcome.delegatedParamGet, Values.get_set_self]
  · have ha : actualTokenOf req = req.param.get XSRFParamName := by
      simp [actualTokenOf, hp]
    simp [hp, Outcome.isDelegated, Outcome.delegatedParamGet, heq, ha]

/-- On a token match, the parameter map handed to the downstream handler
is the original one, except that the header-fallback path (empty `xsrf`
parameter) sets the parameter to the expected token. -/
lemma xsrfValidate_match_param (e : String) (req : Request) (heq : e = actualTokenOf req) :
    (xsrfValidate e req).delegatedParam =
      some (if req.param.get XSRFParamName = "" then
              req.param.set XSRFParamName e
            else req.param) := by
  rw [xsrfValidate_run, xsrfCompare_eq _ _ _ heq]
  by_cases hp : req.param.get XSRFParamName = "" <;>
    simp [hp, Outcome.delegatedParam]

lemma actualTokenOf_FilterRespond (req : Request) (f : Nat → HeaderMap → Nat × HeaderMap) :
    actualTokenOf (FilterRespond req f) = actualTokenOf req := rfl

/-- Wrapping a responder yields a new responder, never the stored one:
minting observably changes the request's responder. -/
lemma filtered_ne (r : Responder) : ∀ f, Responder.filtered r f ≠ r := by
  induction r with
  | base => intro f h; exact Responder.noConfusion h
  | filtered r' f' ih => intro f h; injection h with h1 h2; exact ih f' h1

/-! Lemmas about the minted token. -/

lemma genToken_length (p : Byte4) : (genToken p).length = 8 := rfl

lemma hexDigit_isHex : ∀ n : Nat, n < 16 → isHexChar (hexDigit n) = true := by decide

lemma genToken_hex (p : Byte4) : (genToken p).data.all isHexChar = true := by
  have hdiv : ∀ n : Nat, n < 256 → isHexChar (hexDigit (n / 16)) = true := by
    intro n hn
    exact hexDigit_isHex _ (by omega)
  have hmod : ∀ n : Nat, isHexChar (hexDigit (n % 16)) = true := fun n =>
    hexDigit_isHex _ (Nat.mod_lt _ (by norm_num))
  simp only [genToken, hexEncodeChars, List.all_cons, List.all_nil,
    Bool.and_eq_true, Bool.and_true]
  exact ⟨hdiv _ p.b0.isLt, hmod _, hdiv _ p.b1.isLt, hmod _,
    hdiv _ p.b2.isLt, hmod _, hdiv _ p.b3.isLt, hmod _⟩

/-! Concrete inputs used by witnesses and counterexamples. -/

/-- A request with no cookies, parameters or headers. -/
def baseReq : Request := ⟨"GET", ⟨[]⟩, ⟨[]⟩, ⟨[]⟩, Responder.base⟩

/-- Random bytes 0xab 0xcd 0x12 0x34, hex-encoding to "abcd1234". -/
def pAbcd : Byte4 := ⟨171, 205, 18, 52⟩

/-- Random bytes 0 0 0 0, hex-encoding to "00000000". -/
def pZero : Byte4 := ⟨0, 0, 0, 0⟩

/-- The enabled-XSRF form handler configuration. -/
def fhOn : formHandler := ⟨1024, true⟩

/-- The disabled-XSRF form handler configuration. -/
def fhOff : formHandler := ⟨1024, false⟩

/-- C1: for every request with XSRF checking enabled whose `xsrf` cookie
is absent or not exactly 8 characters long, the guard mints a token of
exactly 8 hexadecimal characters from 4 random bytes, the eventual
response (whatever status and headers the downstream handler or the
error path emits) carries a Set-Cookie header for that token, and
whenever delegation occurs the downstream handler reads the minted token
from the `xsrf` parameter. -/
theorem C1_mint_sets_cookie_and_param (h : formHandler) (p : Byte4) (req : Request)
    (s : Nat) (hm : HeaderMap)
    (hx : h.checkXSRF = true)
    (hlen : (req.cookie.get XSRFCookieName).length ≠ tokenLen)
    (hresp : req.responder = Responder.base) :
    (genToken p).length = 8 ∧
    (genToken p).data.all isHexChar = true ∧
    NewCookieString XSRFCookieName (genToken p) ∈
      (h.ServeWeb (some p) none req).setCookieValues s hm ∧
    paramSeenByDownstream (h.ServeWeb (some p) none req) XSRFParamName (genToken p) = true := by
  rw [ServeWeb_checkXSRF h p req hx, if_neg hlen]
  refine ⟨genToken_length p, genToken_hex p, ?_, paramSeen_xsrfValidate _ _⟩
  unfold Outcome.setCookieValues
  rw [responderOf_xsrfValidate]
  simp [FilterRespond, hresp, Responder.respond, mintFilter, Values.getAll_add_self]

theorem C1_witness :
    (genToken pAbcd).length = 8 ∧
    (genToken pAbcd).data.all isHexChar = true ∧
    NewCookieString XSRFCookieName (genToken pAbcd) ∈
      (fhOn.ServeWeb (some pAbcd) none baseReq).setCookieValues 200 ⟨[]⟩ ∧
    paramSeenByDownstream (fhOn.ServeWeb (some pAbcd) none baseReq) XSRFParamName
      (genToken pAbcd) = true :=
  C1_mint_sets_cookie_and_param fhOn pAbcd baseReq 200 ⟨[]⟩ rfl (by decide) rfl

/-- C2: with XSRF checking enabled, a mutating method and a submitted
token that differs from the expected token, the downstream handler is
never invoked; the error path runs with StatusNotFound, with the
"missing xsrf token" error when the submitted token was empty and the
"bad xsrf token" error otherwise. -/
theorem C2_mutating_mismatch_rejected (h : formHandler) (p : Byte4) (req : Request)
    (hx : h.checkXSRF = true)
    (hmeth : req.method = "POST" ∨ req.method = "PUT" ∨ req.method = "DELETE")
    (hne : expectedTokenOf p req ≠ actualTokenOf req) :
    (h.ServeWeb (some p) none req).isDelegated = false ∧
    (h.ServeWeb (some p) none req).statusOf = some StatusNotFound ∧
    (h.ServeWeb (some p) none req).errorOf =
      some (if actualTokenOf req = "" then "twister: missing xsrf token"
            else "twister: bad xsrf token") := by
  rw [ServeWeb_checkXSRF h p req hx]
  by_cases hlen : (req.cookie.get XSRFCookieName).length = tokenLen
  · rw [if_pos hlen]
    have he : req.cookie.get XSRFCookieName = expectedTokenOf p req := by
      simp [expectedTokenOf, hlen]
    rw [he]
    exact xsrfValidate_ne_mutating _ _ hne hmeth
  · rw [if_neg hlen]
    have he : genToken p = expectedTokenOf p req := by
      simp [expectedTokenOf, hlen]
    have hg : genToken p ≠ actualTokenOf req := by rw [he]; exact hne
    have hne' : genToken p ≠
        actualTokenOf (FilterRespond req (mintFilter
          (NewCookieString XSRFCookieName (genToken p)))) := by
      rw [actualTokenOf_FilterRespond]; exact hg
    have h2 := xsrfValidate_ne_mutating (genToken p)
      (FilterRespond req (mintFilter (NewCookieString XSRFCookieName (genToken p))))
      hne' hmeth
    rw [actualTokenOf_FilterRespond] at h2
    exact h2

def reqC2 : Request :=
  ⟨"POST", ⟨[]⟩, ⟨[(XSRFCookieName, ["abcd1234"])]⟩, ⟨[(XSRFParamName, ["wrongtok"])]⟩,
    Responder.base⟩

theorem C2_witness :
    (fhOn.ServeWeb (some pZero) none reqC2).isDelegated = false ∧
    (fhOn.ServeWeb (some pZero) none reqC2).statusOf = some StatusNotFound ∧
    (fhOn.ServeWeb (some pZero) none reqC2).errorOf =
      some (if actualTokenOf reqC2 = "" then "twister: missing xsrf token"
            else "twister: bad xsrf token") :=
  C2_mutating_mismatch_rejected fhOn pZero reqC2 rfl (Or.inl rfl) (by decide)

/-- Filter that bumps the status by one. -/
def cexF1 : Nat → HeaderMap → Nat × HeaderMap := fun s h => (s + 1, h)

/-- Filter that doubles the status. -/
def cexF2 : Nat → HeaderMap → Nat × HeaderMap := fun s h => (s * 2, h)

/-- C3 counterexample: installing F1 = (+1) then F2 = (*2) and invoking
the responder with (200, []) delivers (401, []) = F1(F2(200, [])) to the
original responder, while the pair F2(F1(200, [])) the claim names is
(402, []); the two differ, so the delivered pair is not F2(F1(200,H)). -/
theorem C3_counterexample :
    (FilterRespond (FilterRespond baseReq cexF1) cexF2).responder.respond 200 ⟨[]⟩ =
      (401, ⟨[]⟩) ∧
    cexF2 (cexF1 200 ⟨[]⟩).1 (cexF1 200 ⟨[]⟩).2 = (402, ⟨[]⟩) ∧
    decide ((FilterRespond (FilterRespond baseReq cexF1) cexF2).responder.respond 200 ⟨[]⟩ =
      cexF2 (cexF1 200 ⟨[]⟩).1 (cexF1 200 ⟨[]⟩).2) = false := by
  refine ⟨rfl, rfl, by decide⟩

/-- C3 amended: installing filter F1 and then filter F2 on the same
request and invoking the responder with (s, hm) delivers to the original
responder the pair F1(F2(s, hm)): the last-installed filter F2 runs
first, because each installation wraps the previously stored responder,
and no installed filter is ever skipped. -/
theorem C3_filter_composition (req : Request) (f1 f2 : Nat → HeaderMap → Nat × HeaderMap)
    (s : Nat) (hm : HeaderMap) :
    (FilterRespond (FilterRespond req f1) f2).responder.respond s hm =
      req.responder.respond (f1 (f2 s hm).1 (f2 s hm).2).1 (f1 (f2 s hm).1 (f2 s hm).2).2 :=
  rfl

/-- C4 counterexample: cookie "abc" (3 characters, so not of the
canonical length) with method POST and parameter xsrf = "abc": cookie
token and submitted token are equal, yet the handler does not invoke the
downstream handler (a fresh token is minted and the request rejected). -/
def reqC4 : Request :=
  ⟨"POST", ⟨[]⟩, ⟨[(XSRFCookieName, ["abc"])]⟩, ⟨[(XSRFParamName, ["abc"])]⟩,
    Responder.base⟩

theorem C4_counterexample :
    reqC4.cookie.get XSRFCookieName = actualTokenOf reqC4 ∧
    (fhOn.ServeWeb (some pZero) none reqC4).isDelegated = false := by
  refine ⟨rfl, by decide⟩

/-- C4 amended: for every request with XSRF checking enabled whose
cookie token is exactly 8 characters long and equals the submitted
token, the downstream handler is invoked and no new token is minted (the
responder is left unchanged, so no Set-Cookie filter is installed); the
random source is never consulted. -/
theorem C4_match_delegates_without_mint (h : formHandler) (rng : Option Byte4)
    (req : Request)
    (hx : h.checkXSRF = true)
    (hlen : (req.cookie.get XSRFCookieName).length = tokenLen)
    (heq : req.cookie.get XSRFCookieName = actualTokenOf req) :
    (h.ServeWeb rng none req).isDelegated = true ∧
    (h.ServeWeb rng none req).responderOf = some req.responder := by
  have hred : h.ServeWeb rng none req =
      xsrfValidate (req.cookie.get XSRFCookieName) req := by
    simp [formHandler.ServeWeb, hx, hlen]
  rw [hred]
  exact ⟨(xsrfValidate_match _ _ heq).1, responderOf_xsrfValidate _ _⟩

def reqC4w : Request :=
  ⟨"POST", ⟨[]⟩, ⟨[(XSRFCookieName, ["abcd1234"])]⟩, ⟨[(XSRFParamName, ["abcd1234"])]⟩,
    Responder.base⟩

theorem C4_witness :
    (fhOn.ServeWeb none none reqC4w).isDelegated = true ∧
    (fhOn.ServeWeb none none reqC4w).responderOf = some reqC4w.responder :=
  C4_match_delegates_without_mint fhOn none reqC4w rfl (by decide) rfl

/-- C5: with XSRF checking enabled, a non-mutating method and a
submitted token that does not match the expected token, the downstream
handler is invoked and reads the expected token from the `xsrf`
parameter. -/
theorem C5_safe_mismatch_delegates (h : formHandler) (p : Byte4) (req : Request)
    (hx : h.checkXSRF = true)
    (hmeth : ¬(req.method = "POST" ∨ req.method = "PUT" ∨ req.method = "DELETE"))
    (hne : expectedTokenOf p req ≠ actualTokenOf req) :
    (h.ServeWeb (some p) none req).isDelegated = true ∧
    (h.ServeWeb (some p) none req).delegatedParamGet XSRFParamName =
      some (expectedTokenOf p req) := by
  rw [ServeWeb_checkXSRF h p req hx]
  by_cases hlen : (req.cookie.get XSRFCookieName).length = tokenLen
  · rw [if_pos hlen]
    have he : req.cookie.get XSRFCookieName = expectedTokenOf p req := by
      simp [expectedTokenOf, hlen]
    rw [he]
    exact xsrfValidate_ne_safe _ _ hne hmeth
  · rw [if_neg hlen]
    have he : genToken p = expectedTokenOf p req := by
      simp [expectedTokenOf, hlen]
    have hg : genToken p ≠ actualTokenOf req := by rw [he]; exact hne
    have hne' : genToken p ≠
        actualTokenOf (FilterRespond req (mintFilter
          (NewCookieString XSRFCookieName (genToken p)))) := by
      rw [actualTokenOf_FilterRespond]; exact hg
    have h2 := xsrfValidate_ne_safe (genToken p)
      (FilterRespond req (mintFilter (NewCookieString XSRFCookieName (genToken p))))
      hne' hmeth
    refine ⟨h2.1, ?_⟩
    rw [h2.2, he]

def reqC5 : Request :=
  ⟨"GET", ⟨[]⟩, ⟨[(XSRFCookieName, ["abcd1234"])]⟩, ⟨[(XSRFParamName, ["wrongtok"])]⟩,
    Responder.base⟩

theorem C5_witness :
    (fhOn.ServeWeb (some pZero) none reqC5).isDelegated = true ∧
    (fhOn.ServeWeb (some pZero) none reqC5).delegatedParamGet XSRFParamName =
      some (expectedTokenOf pZero reqC5) :=
  C5_safe_mismatch_delegates fhOn pZero reqC5 rfl (by decide) (by decide)

/-- C6 counterexample: with XSRF checking disabled, a request whose body
fails to parse is not delegated (the claim says delegation always
occurs). -/
theorem C6_counterexample :
    (fhOff.ServeWeb none (some ParseErr.other) baseReq).isDelegated = false := by
  decide

/-- C6 amended: with XSRF checking disabled, for every request whose
body parses successfully the handler delegates the request unchanged
(cookies, parameters, headers and responder untouched); on a parse
failure it takes the error path, still touching nothing. -/
theorem C6_disabled_delegates_unchanged (h : formHandler) (rng : Option Byte4)
    (req : Request) (hx : h.checkXSRF = false) :
    h.ServeWeb rng none req = Outcome.delegated req := by
  simp [formHandler.ServeWeb, hx]

theorem C6_witness :
    fhOff.ServeWeb none none baseReq = Outcome.delegated baseReq :=
  C6_disabled_delegates_unchanged fhOff none baseReq rfl

/-- C7 counterexample: cookie "abcd1234", multi-valued parameter
xsrf = ["abcd1234", "zzz"].  The tokens match via the parameter itself,
and the handler delegates with the parameter map untouched (both values
still present), while setting the parameter to the expected token would
have collapsed it to the single value ["abcd1234"]: the claimed set does
not happen in this case. -/
def reqC7 : Request :=
  ⟨"GET", ⟨[]⟩, ⟨[(XSRFCookieName, ["abcd1234"])]⟩,
    ⟨[(XSRFParamName, ["abcd1234", "zzz"])]⟩, Responder.base⟩

theorem C7_counterexample :
    (fhOn.ServeWeb none none reqC7).delegatedParam = some reqC7.param ∧
    reqC7.param.getAll XSRFParamName = ["abcd1234", "zzz"] ∧
    (reqC7.param.set XSRFParamName (reqC7.cookie.get XSRFCookieName)).getAll
      XSRFParamName = ["abcd1234"] ∧
    decide ((fhOn.ServeWeb none none reqC7).delegatedParam =
      some (reqC7.param.set XSRFParamName (reqC7.cookie.get XSRFCookieName))) = false := by
  exact ⟨by decide, by decide, by decide, by decide⟩

/-- C7 amended: with XSRF checking enabled and matching tokens the
request is delegated, and the parameter map handed downstream is the
original one when the match came from the `xsrf` parameter itself (no
set is performed, though the parameter's first value already equals the
expected token) and the original one with the `xsrf` parameter set to
the expected token when the match came from the header fallback; in
both cases the downstream handler reads the expected token from the
parameter. -/
theorem C7_match_sets_param_only_on_fallback (h : formHandler) (p : Byte4) (req : Request)
    (hx : h.checkXSRF = true)
    (heq : expectedTokenOf p req = actualTokenOf req) :
    (h.ServeWeb (some p) none req).delegatedParam =
      some (if req.param.get XSRFParamName = "" then
              req.param.set XSRFParamName (expectedTokenOf p req)
            else req.param) ∧
    (h.ServeWeb (some p) none req).delegatedParamGet XSRFParamName =
      some (expectedTokenOf p req) := by
  rw [ServeWeb_checkXSRF h p req hx]
  by_cases hlen : (req.cookie.get XSRFCookieName).length = tokenLen
  · rw [if_pos hlen]
    have he : req.cookie.get XSRFCookieName = expectedTokenOf p req := by
      simp [expectedTokenOf, hlen]
    rw [he]
    exact ⟨xsrfValidate_match_param _ _ heq, (xsrfValidate_match _ _ heq).2⟩
  · rw [if_neg hlen]
    have he : genToken p = expectedTokenOf p req := by
      simp [expectedTokenOf, hlen]
    have heq' : genToken p =
        actualTokenOf (FilterRespond req (mintFilter
          (NewCookieString XSRFCookieName (genToken p)))) := by
      rw [actualTokenOf_FilterRespond, he]; exact heq
    have h1 := xsrfValidate_match_param (genToken p)
      (FilterRespond req (mintFilter (NewCookieString XSRFCookieName (genToken p)))) heq'
    have h2 := (xsrfValidate_match (genToken p)
      (FilterRespond req (mintFilter (NewCookieString XSRFCookieName (genToken p)))) heq').2
    constructor
    · rw [h1, he]
      simp [FilterRespond]
    · rw [h2, he]

/-- C7 witness: the header-fallback match (empty parameter, token in the
X-XSRFToken header). -/
def reqC7w : Request :=
  ⟨"GET", ⟨[(HeaderXXSRFToken, ["abcd1234"])]⟩, ⟨[(XSRFCookieName, ["abcd1234"])]⟩,
    ⟨[]⟩, Responder.base⟩

theorem C7_witness :
    (fhOn.ServeWeb (some pZero) none reqC7w).delegatedParam =
      some (if reqC7w.param.get XSRFParamName = "" then
              reqC7w.param.set XSRFParamName (expectedTokenOf pZero reqC7w)
            else reqC7w.param) ∧
    (fhOn.ServeWeb (some pZero) none reqC7w).delegatedParamGet XSRFParamName =
      some (expectedTokenOf pZero reqC7w) :=
  C7_match_sets_param_only_on_fallback fhOn pZero reqC7w rfl (by decide)

/-- C8: a request whose body fails to parse is never delegated; the
error path runs with StatusBadRequest for a generic parse failure and
with StatusRequestEntityTooLarge for a too-large body, escalated to
StatusExpectationFailed when the request carries a non-empty Expect
header. -/
theorem C8_parse_failure_errors (h : formHandler) (rng : Option Byte4) (req : Request)
    (e : ParseErr) :
    h.ServeWeb rng (some e) req =
      Outcome.errored
        (match e with
          | ParseErr.other => StatusBadRequest
          | ParseErr.tooLarge =>
              if req.header.get HeaderExpect = "" then StatusRequestEntityTooLarge
              else StatusExpectationFailed)
        "twister: Error reading or parsing form." req := by
  cases e <;> rfl

/-- C9: when minting is needed and the secure random source fails, the
handler panics: no token is issued, no delegation occurs, and no normal
error response is produced. -/
theorem C9_rand_failure_panics (h : formHandler) (req : Request)
    (hx : h.checkXSRF = true)
    (hlen : (req.cookie.get XSRFCookieName).length ≠ tokenLen) :
    h.ServeWeb none none req = Outcome.panicked "twister: rand read failed" := by
  simp [formHandler.ServeWeb, hx, hlen]

theorem C9_witness :
    fhOn.ServeWeb none none baseReq = Outcome.panicked "twister: rand read failed" :=
  C9_rand_failure_panics fhOn baseReq rfl (by decide)

/-- C10: with XSRF checking enabled, the responder is left unchanged (no
token is minted) exactly when the cookie value is 8 characters long;
when it is, the guard validates against the raw cookie value — whatever
its content, with no further validation and without consulting the
random source — and otherwise the wrong length is what forced minting. -/
theorem C10_mint_iff_wrong_length (h : formHandler) (p : Byte4) (req : Request)
    (hx : h.checkXSRF = true) :
    (((h.ServeWeb (some p) none req).responderOf = some req.responder) ↔
        (req.cookie.get XSRFCookieName).length = tokenLen) ∧
    (h.ServeWeb (some p) none req =
        xsrfValidate (req.cookie.get XSRFCookieName) req ∨
      (req.cookie.get XSRFCookieName).length ≠ tokenLen) ∧
    (h.ServeWeb (some p) none req = h.ServeWeb none none req ∨
      (req.cookie.get XSRFCookieName).length ≠ tokenLen) := by
  by_cases hlen : (req.cookie.get XSRFCookieName).length = tokenLen
  · refine ⟨?_, Or.inl ?_, Or.inl ?_⟩
    · rw [ServeWeb_checkXSRF h p req hx, if_pos hlen, responderOf_xsrfValidate]
      simp [hlen]
    · simp [formHandler.ServeWeb, hx, hlen]
    · simp [formHandler.ServeWeb, hx, hlen]
  · refine ⟨?_, Or.inr hlen, Or.inr hlen⟩
    rw [ServeWeb_checkXSRF h p req hx, if_neg hlen, responderOf_xsrfValidate]
    simp [hlen, FilterRespond, filtered_ne]

/-- C10 witness: an 8-character cookie that is not hexadecimal at all is
still accepted as the expected token. -/
def reqC10 : Request :=
  ⟨"POST", ⟨[]⟩, ⟨[(XSRFCookieName, ["!!!!<<>>"])]⟩,
    ⟨[(XSRFParamName, ["!!!!<<>>"])]⟩, Responder.base⟩

theorem C10_witness :
    (((fhOn.ServeWeb (some pZero) none reqC10).responderOf = some reqC10.responder) ↔
        (reqC10.cookie.get XSRFCookieName).length = tokenLen) ∧
    (fhOn.ServeWeb (some pZero) none reqC10 =
        xsrfValidate (reqC10.cookie.get XSRFCookieName) reqC10 ∨
      (reqC10.cookie.get XSRFCookieName).length ≠ tokenLen) ∧
    (fhOn.ServeWeb (some pZero) none reqC10 = fhOn.ServeWeb none none reqC10 ∨
      (reqC10.cookie.get XSRFCookieName).length ≠ tokenLen) :=
  C10_mint_iff_wrong_length fhOn pZero reqC10 rfl
